import Mathlib

/-!
Verification of the `stated` repository: a Rust demonstration of the
typestate pattern for an online-shop customer.  The data model and the
operations are translated from `src/lib.rs`; the driver logic used by the
end-to-end claim is translated from `src/main.rs`.
-/

set_option linter.unusedVariables false
set_option maxRecDepth 8000

namespace Stated

/-- Item identifiers are `u8` in the source (`shopping_cart: Vec<u8>`,
`add_item(mut self, item: u8)`), i.e. the 8-bit unsigned integers. -/
abbrev Item : Type := Fin 256

/-- The typestate parameter: the three marker types `Browsing`, `Shopping`,
`Checkout` of `src/lib.rs`. -/
inductive State : Type where
  | Browsing : State
  | Shopping : State
  | Checkout : State
deriving DecidableEq

/-- `Customer<S>` from `src/lib.rs`: a shopping cart (an ordered `Vec<u8>`)
indexed by the phantom state parameter. -/
structure Customer (S : State) : Type where
  shopping_cart : List Item
deriving DecidableEq

namespace BrowsingOps

/-- `Customer::<Browsing>::visit_site`: the entry point, empty cart. -/
def visit_site : Customer State.Browsing :=
  { shopping_cart := [] }

/-- `Customer::<Browsing>::leave`: consumes the value, returns nothing. -/
def leave (c : Customer State.Browsing) : Unit := ()

/-- `Customer::<Browsing>::add_item`: pushes the item onto the cart and
moves to the Shopping state. -/
def add_item (c : Customer State.Browsing) (item : Item) :
    Customer State.Shopping :=
  { shopping_cart := c.shopping_cart ++ [item] }

end BrowsingOps

namespace ShoppingOps

/-- `Customer::<Shopping>::add_item`: pushes the item onto the cart. -/
def add_item (c : Customer State.Shopping) (item : Item) :
    Customer State.Shopping :=
  { shopping_cart := c.shopping_cart ++ [item] }

/-- `Customer::<Shopping>::pop_item`: `Vec::pop` removes the last element
if present; the customer is returned either way. -/
def pop_item (c : Customer State.Shopping) : Customer State.Shopping :=
  { shopping_cart := c.shopping_cart.dropLast }

/-- `Customer::<Shopping>::clear_cart`: `Vec::clear`, then move to the
Browsing state. -/
def clear_cart (c : Customer State.Shopping) : Customer State.Browsing :=
  { shopping_cart := [] }

/-- `Customer::<Shopping>::proceed_to_checkout`: cart unchanged, move to
the Checkout state. -/
def proceed_to_checkout (c : Customer State.Shopping) :
    Customer State.Checkout :=
  { shopping_cart := c.shopping_cart }

end ShoppingOps

namespace CheckoutOps

/-- `Customer::<Checkout>::cancel_checkout`: cart unchanged, back to the
Shopping state. -/
def cancel_checkout (c : Customer State.Checkout) :
    Customer State.Shopping :=
  { shopping_cart := c.shopping_cart }

/-- `Customer::<Checkout>::finalise_payment`: consumes the value, returns
nothing. -/
def finalise_payment (c : Customer State.Checkout) : Unit := ()

end CheckoutOps

/-- The operations of the transition table, as data, so that sequences of
calls can be quantified over. -/
inductive Op : Type where
  | visitSite : Op
  | leave : Op
  | addItem : Item → Op
  | popItem : Op
  | clearCart : Op
  | proceedToCheckout : Op
  | cancelCheckout : Op
  | finalisePayment : Op
deriving DecidableEq

/-- A live customer value of any state, or the terminated flow (after
`leave` or `finalise_payment`, which consume the value). -/
inductive Live : Type where
  | browsing : Customer State.Browsing → Live
  | shopping : Customer State.Shopping → Live
  | checkout : Customer State.Checkout → Live
  | done : Live
deriving DecidableEq

/-- The state of a live value; `none` once the flow has terminated. -/
def Live.state : Live → Option State
  | .browsing _ => some State.Browsing
  | .shopping _ => some State.Shopping
  | .checkout _ => some State.Checkout
  | .done => none

/-- The cart of a live value; `none` once the flow has terminated. -/
def Live.cart : Live → Option (List Item)
  | .browsing c => some c.shopping_cart
  | .shopping c => some c.shopping_cart
  | .checkout c => some c.shopping_cart
  | .done => none

/-- One call on a live value, dispatching to the method the source defines
for that state; `none` when the source defines no such method (the call
would not type-check in Rust). -/
def step : Live → Op → Option Live
  | .browsing c, .leave => some (.done)
  | .browsing c, .addItem x => some (.shopping (BrowsingOps.add_item c x))
  | .shopping c, .addItem x => some (.shopping (ShoppingOps.add_item c x))
  | .shopping c, .popItem => some (.shopping (ShoppingOps.pop_item c))
  | .shopping c, .clearCart => some (.browsing (ShoppingOps.clear_cart c))
  | .shopping c, .proceedToCheckout =>
      some (.checkout (ShoppingOps.proceed_to_checkout c))
  | .checkout c, .cancelCheckout =>
      some (.shopping (CheckoutOps.cancel_checkout c))
  | .checkout c, .finalisePayment => some (.done)
  | _, _ => none

/-- Run a sequence of calls; `none` as soon as one call is not allowed. -/
def run : Live → List Op → Option Live
  | l, [] => some l
  | l, op :: ops =>
    match step l op with
    | some l2 => run l2 ops
    | none => none

/-- Modelled from the spec, transition table of section 4.1: which
operations each state admits (the From column rows of that state). -/
def allowed : State → Op → Bool
  | State.Browsing, .leave => true
  | State.Browsing, .addItem _ => true
  | State.Shopping, .addItem _ => true
  | State.Shopping, .popItem => true
  | State.Shopping, .clearCart => true
  | State.Shopping, .proceedToCheckout => true
  | State.Checkout, .cancelCheckout => true
  | State.Checkout, .finalisePayment => true
  | _, _ => false

/-- Modelled from the spec (claim C1 wording): replay of an operation on
an ordinary sequence — `addItem x` appends `x`, `popItem` removes the last
element if the sequence is non-empty, `clearCart` empties it, every other
operation is the identity. -/
def replayOp (cart : List Item) : Op → List Item
  | .addItem x => cart ++ [x]
  | .popItem => cart.dropLast
  | .clearCart => []
  | _ => cart

/-- The item catalogue of the demonstration driver `src/main.rs`. -/
def catalogue : List Item := [20, 42, 36, 13, 71, 100]

/-- The loop body of `src/main.rs`: add the item if it is even, otherwise
pop the last item. -/
def shopStep (c : Customer State.Shopping) (item : Item) :
    Customer State.Shopping :=
  if item.val % 2 = 0 then ShoppingOps.add_item c item
  else ShoppingOps.pop_item c

end Stated

namespace Stated

theorem run_done (ops : List Op) (l : Live)
    (h : run Live.done ops = some l) : l = Live.done := by
  cases ops with
  | nil => simpa [run] using h.symm
  | cons op ops => cases op <;> simp [run, step] at h

theorem step_cart (l0 l1 : Live) (op : Op) (cs0 : List Item)
    (hs : step l0 op = some l1) (hc : l0.cart = some cs0) :
    l1 = Live.done ∨ l1.cart = some (replayOp cs0 op) := by
  cases l0 <;> cases op <;>
      simp only [step, Option.some.injEq, reduceCtorEq] at hs <;>
    subst hs <;>
    simp_all [Live.cart, replayOp, BrowsingOps.add_item,
      ShoppingOps.add_item, ShoppingOps.pop_item, ShoppingOps.clear_cart,
      ShoppingOps.proceed_to_checkout, CheckoutOps.cancel_checkout]

theorem run_cart (ops : List Op) : ∀ (l0 l : Live) (cs0 cs : List Item),
    run l0 ops = some l → l0.cart = some cs0 → l.cart = some cs →
    cs = List.foldl replayOp cs0 ops := by
  induction ops with
  | nil =>
    intro l0 l cs0 cs hr hc0 hc
    simp only [run, Option.some.injEq] at hr
    subst hr
    rw [hc0] at hc
    simpa using hc.symm
  | cons op ops ih =>
    intro l0 l cs0 cs hr hc0 hc
    simp only [run] at hr
    cases hs : step l0 op with
    | none => simp [hs] at hr
    | some l1 =>
      rw [hs] at hr
      rcases step_cart l0 l1 op cs0 hs hc0 with hdone | hc1
      · subst hdone
        have hl := run_done ops l hr
        subst hl
        simp [Live.cart] at hc
      · simpa [List.foldl] using ih l1 l (replayOp cs0 op) cs hr hc1 hc

theorem step_browsing_empty (l0 : Live) (op : Op)
    (c : Customer State.Browsing)
    (h : step l0 op = some (Live.browsing c)) : c.shopping_cart = [] := by
  cases l0 <;> cases op <;>
    simp only [step, ShoppingOps.clear_cart, Option.some.injEq,
      Live.browsing.injEq, reduceCtorEq] at h
  subst h
  rfl

theorem run_browsing_empty (ops : List Op) : ∀ (l0 : Live),
    (∀ c0 : Customer State.Browsing,
      l0 = Live.browsing c0 → c0.shopping_cart = []) →
    ∀ c : Customer State.Browsing,
      run l0 ops = some (Live.browsing c) → c.shopping_cart = [] := by
  induction ops with
  | nil =>
    intro l0 hinv c hr
    simp only [run, Option.some.injEq] at hr
    exact hinv c hr
  | cons op ops ih =>
    intro l0 hinv c hr
    simp only [run] at hr
    cases hs : step l0 op with
    | none => simp [hs] at hr
    | some l1 =>
      rw [hs] at hr
      exact ih l1 (fun c0 h0 => step_browsing_empty l0 op c0 (h0 ▸ hs)) c hr

/-- Claim C1: for every sequence of transitions that the table admits,
the cart of the resulting live customer equals the replay of the
corresponding append/remove/clear operations on an ordinary sequence. -/
theorem cart_refines_replay (ops : List Op) (l : Live) (cs : List Item)
    (hr : run (Live.browsing BrowsingOps.visit_site) ops = some l)
    (hc : l.cart = some cs) :
    cs = List.foldl replayOp [] ops :=
  run_cart ops _ l [] cs hr rfl hc

/-- Witness for C1 on the concrete sequence add 5 then pop. -/
theorem cart_refines_replay_witness :
    run (Live.browsing BrowsingOps.visit_site) [Op.addItem 5, Op.popItem] =
        some (Live.shopping ⟨[]⟩) ∧
      ([] : List Item) =
        List.foldl replayOp [] [Op.addItem 5, Op.popItem] :=
  ⟨rfl, cart_refines_replay [Op.addItem 5, Op.popItem]
    (Live.shopping ⟨[]⟩) [] rfl rfl⟩

/-- Claim C2: popping from an empty cart in the Shopping state is a no-op
that returns a valid Shopping-state value with an empty cart, without any
error. -/
theorem popItem_empty_noop (c : Customer State.Shopping)
    (h : c.shopping_cart = []) :
    ShoppingOps.pop_item c = c ∧
      (ShoppingOps.pop_item c).shopping_cart = [] := by
  cases c with
  | mk cart =>
    simp only [Customer.mk.injEq] at h
    subst h
    exact ⟨rfl, rfl⟩

/-- Witness for C2 at the concrete empty-cart customer. -/
theorem popItem_empty_noop_witness :
    ShoppingOps.pop_item ⟨[]⟩ = (⟨[]⟩ : Customer State.Shopping) ∧
      (ShoppingOps.pop_item ⟨[]⟩).shopping_cart = [] :=
  popItem_empty_noop ⟨[]⟩ rfl

/-- Claim C3: in the Shopping state, `add_item x` immediately followed by
`pop_item` restores the cart contents to what they were before. -/
theorem addItem_popItem_cancel (c : Customer State.Shopping) (x : Item) :
    (ShoppingOps.pop_item (ShoppingOps.add_item c x)).shopping_cart =
      c.shopping_cart := by
  simp [ShoppingOps.pop_item, ShoppingOps.add_item]

/-- Claim C4: `clear_cart` on any Shopping-state customer yields a
Browsing-state value with an empty cart. -/
theorem clearCart_empty (c : Customer State.Shopping) :
    (ShoppingOps.clear_cart c).shopping_cart = [] := rfl

/-- Claim C5: `proceed_to_checkout` then `cancel_checkout` is a round
trip: the result is the same Shopping-state value, and neither operation
changes the cart. -/
theorem checkout_cancel_roundtrip (c : Customer State.Shopping) :
    run (Live.shopping c) [Op.proceedToCheckout, Op.cancelCheckout] =
        some (Live.shopping c) ∧
      (ShoppingOps.proceed_to_checkout c).shopping_cart =
        c.shopping_cart ∧
      (CheckoutOps.cancel_checkout
          (ShoppingOps.proceed_to_checkout c)).shopping_cart =
        c.shopping_cart :=
  ⟨rfl, rfl, rfl⟩

/-- Claim C7: `visit_site` yields a Browsing-state customer with an empty
cart. -/
theorem visitSite_browsing_empty :
    BrowsingOps.visit_site.shopping_cart = ([] : List Item) ∧
      (Live.browsing BrowsingOps.visit_site).state = some State.Browsing :=
  ⟨rfl, rfl⟩

/-- Claim C6: the demonstration driver scenario.  Starting from
`visit_site` then `add_item 20`, folding the even-add odd-pop loop over
the rest of the catalogue passes through exactly the cart states `[20]`,
`[20, 42]`, `[20, 42, 36]`, `[20, 42]`, `[20]`, `[20, 100]`, and after
`proceed_to_checkout` the flow terminates via `finalise_payment` with
final cart `[20, 100]`. -/
theorem driver_scenario :
    List.map Customer.shopping_cart
        (List.scanl shopStep
          (BrowsingOps.add_item BrowsingOps.visit_site 20)
          catalogue.tail) =
      [[20], [20, 42], [20, 42, 36], [20, 42], [20], [20, 100]] ∧
      (ShoppingOps.proceed_to_checkout
          (List.foldl shopStep
            (BrowsingOps.add_item BrowsingOps.visit_site 20)
            catalogue.tail)).shopping_cart = [20, 100] ∧
      CheckoutOps.finalise_payment
          (ShoppingOps.proceed_to_checkout
            (List.foldl shopStep
              (BrowsingOps.add_item BrowsingOps.visit_site 20)
              catalogue.tail)) = () := by
  refine ⟨?_, ?_, rfl⟩ <;> decide

/-- Claim C9: an operation succeeds on a live customer value exactly when
the transition table of section 4.1 lists it for the value's current
state, and nothing is callable after a terminal operation.  In the
embedding a call outside the table has no meaning (the per-state methods
do not exist at other states), mirroring the compile-time rejection. -/
theorem capability_matches_table :
    (∀ (l : Live) (s : State) (op : Op), l.state = some s →
        ((step l op).isSome ↔ allowed s op = true)) ∧
      (∀ op : Op, step Live.done op = none) := by
  constructor
  · intro l s op h
    cases l <;>
        simp only [Live.state, Option.some.injEq, reduceCtorEq] at h <;>
      subst h <;> cases op <;> simp [step, allowed]
  · intro op
    cases op <;> rfl

/-- Witness for C9 at a concrete Checkout-state value and operation. -/
theorem capability_matches_table_witness :
    (step (Live.checkout ⟨[]⟩) Op.cancelCheckout).isSome ↔
      allowed State.Checkout Op.cancelCheckout = true :=
  capability_matches_table.1 (Live.checkout ⟨[]⟩) State.Checkout
    Op.cancelCheckout rfl

/-- Claim C10: every Browsing-state customer reachable from `visit_site`
has an empty cart. -/
theorem browsing_cart_empty (ops : List Op) (c : Customer State.Browsing)
    (hr : run (Live.browsing BrowsingOps.visit_site) ops =
      some (Live.browsing c)) :
    c.shopping_cart = [] :=
  run_browsing_empty ops _
    (fun c0 h0 => by
      injection h0 with h
      rw [← h]
      rfl)
    c hr

/-- Witness for C10 on the concrete sequence add 5 then clear. -/
theorem browsing_cart_empty_witness :
    run (Live.browsing BrowsingOps.visit_site)
        [Op.addItem 5, Op.clearCart] = some (Live.browsing ⟨[]⟩) ∧
      (⟨[]⟩ : Customer State.Browsing).shopping_cart = [] :=
  ⟨rfl, browsing_cart_empty [Op.addItem 5, Op.clearCart] ⟨[]⟩ rfl⟩

/-- Counterexample to claim C8 as stated: the integer 256 is not an
acceptable item, because the item domain in the code is `u8`. -/
theorem item_256_not_representable : ¬ ∃ x : Item, (x.val : Int) = 256 := by
  decide

/-- Claim C8 (amended): the item domain is the 8-bit unsigned integers:
every item is an integer in the interval [0, 256), and every integer in
that interval is an acceptable item. -/
theorem item_domain_u8 :
    (∀ x : Item, (0 : Int) ≤ (x.val : Int) ∧ (x.val : Int) < 256) ∧
      (∀ n : Int, 0 ≤ n → n < 256 → ∃ x : Item, (x.val : Int) = n) := by
  constructor
  · intro x
    exact ⟨Int.ofNat_nonneg _, by exact_mod_cast x.isLt⟩
  · intro n h0 h1
    refine ⟨⟨n.toNat, by omega⟩, ?_⟩
    simp [Int.toNat_of_nonneg h0]

/-- Witness for C8 (amended) at the concrete integer 20. -/
theorem item_domain_u8_witness : ∃ x : Item, (x.val : Int) = 20 :=
  item_domain_u8.2 20 (by decide) (by decide)

end Stated
